import Mathlib

/-!
Shallow embedding of the parsing core of the `ie-utils` repository
(`utils/__init__.py`): the `InvoiceType` tag sets and the four static
methods of `TxerpadParseUtils` (`parse_country`, `parse_money`,
`parse_invoice_period`, `parse_tax`), together with models of the Python
built-ins they call (`str.replace`, `re.match` over the pattern
`(\d|\.)+`, `str.split('.')`, `Decimal(str)`, `int(str)`,
`datetime.strptime` restricted to the directives the library is used
with, and dict lookup).

Python numbers are modelled as exact rationals (`ℚ`); a Python function
that may raise is modelled with `Except`/`Option`; `None` results are
`Option.none`.  The ambient current date read by
`datetime.datetime.today()` is passed as an explicit `PyDate` argument.
-/

/-- Decidable equality for `Except`, so that concrete runs of the
fallible models can be checked by `decide`. -/
instance exceptDecidableEq {ε α : Type} [DecidableEq ε] [DecidableEq α] :
    DecidableEq (Except ε α)
  | .error a, .error b =>
    if h : a = b then .isTrue (by rw [h])
    else .isFalse (by intro hc; injection hc; contradiction)
  | .error _, .ok _ => .isFalse (by intro hc; exact Except.noConfusion hc)
  | .ok _, .error _ => .isFalse (by intro hc; exact Except.noConfusion hc)
  | .ok a, .ok b =>
    if h : a = b then .isTrue (by rw [h])
    else .isFalse (by intro hc; injection hc; contradiction)

namespace IeUtils

/-! ### InvoiceType (class `InvoiceType` in `utils/__init__.py`) -/

namespace InvoiceType

def SALE : String := "venta"
def PURCHASE : String := "compra"
def SALE_RECTIFYING : String := "rectifica_venta"
def PURCHASE_RECTIFYING : String := "rectifica_compra"

def TYPES : List String := [SALE, PURCHASE, SALE_RECTIFYING, PURCHASE_RECTIFYING]

def SALES : List String := [SALE, SALE_RECTIFYING]
def PURCHASES : List String := [PURCHASE, PURCHASE_RECTIFYING]
def RECTIFIES : List String := [SALE_RECTIFYING, PURCHASE_RECTIFYING]

end InvoiceType

/-! ### Models of the Python built-ins used by `parse_money` -/

/-- A character is matched by the regex alternative `(\d|\.)`. -/
def isDigitOrDot (c : Char) : Bool := c.isDigit || c == '.'

/-- Model of `money.replace(',', '.')`: replace every comma by a dot (char map). -/
def replaceComma (s : String) : String := ⟨s.data.map fun c => if c = ',' then '.' else c⟩

/-- Model of `text.split('.')` on a char list: split on every dot, keeping empty
segments, with `[] ↦ [[]]` exactly as in Python. -/
def splitOnDot : List Char → List (List Char)
  | [] => [[]]
  | c :: rest =>
    if c = '.' then [] :: splitOnDot rest
    else
      match splitOnDot rest with
      | [] => [[c]]
      | seg :: segs => (c :: seg) :: segs

/-- Numeric value of a (possibly empty) list of decimal digits, empty ↦ 0. -/
def natOfDigits (l : List Char) : ℕ := l.foldl (fun n c => 10 * n + (c.toNat - 48)) 0

/-- Exact value of the Python `Decimal` string `f'{intPart}.{fracPart}'`
where both parts are digit strings. -/
def moneyValue (intPart fracPart : List Char) : ℚ :=
  (natOfDigits intPart : ℚ) + (natOfDigits fracPart : ℚ) / (10 : ℚ) ^ fracPart.length

/-- The two exceptions the string branch of `parse_money` can raise:
`re.match(...)` returning `None` so that `.group()` raises
`AttributeError`, and `Decimal(...)` raising `InvalidOperation` when the
constructed string contains no digit at all. -/
inductive MoneyErr where
  | matchFail
  | invalidDecimal
deriving DecidableEq, Repr

/-- The type of the `money` argument of `parse_money`: a Python number
(`int`/`float`, both exact rationals), a string, or any other object. -/
inductive PyMoney where
  | num (q : ℚ)
  | str (s : String)
  | other

/-- String branch of `TxerpadParseUtils.parse_money`:
replace commas by dots, take the leading run matched by `(\d|\.)+`
(raising if it is empty), split it on dots, and build the decimal from
all-but-last segments joined as integer part and the last segment as
fractional part (a single segment is parsed directly). -/
def parse_money_str (s : String) : Except MoneyErr ℚ :=
  match (replaceComma s).data.takeWhile isDigitOrDot with
  | [] => .error .matchFail
  | c :: cs =>
    if 1 < (splitOnDot (c :: cs)).length then
      if (splitOnDot (c :: cs)).dropLast.flatten = ([] : List Char) ∧
          (splitOnDot (c :: cs)).getLastD [] = ([] : List Char) then
        .error .invalidDecimal
      else
        .ok (moneyValue ((splitOnDot (c :: cs)).dropLast.flatten) ((splitOnDot (c :: cs)).getLastD []))
    else .ok (moneyValue (c :: cs) [])

/-- Embedding of `TxerpadParseUtils.parse_money`. -/
def parse_money : PyMoney → Except MoneyErr (Option ℚ)
  | .num q => .ok (some q)
  | .str s => (parse_money_str s).map some
  | .other => .ok none

/-! ### Model of `datetime.datetime.strptime` and `int(str)` -/

/-- A Python `datetime.date` (the fields `parse_invoice_period` reads:
`year`, `month`, `day`).  `datetime.datetime.today()` is modelled by
passing the current date as an explicit argument. -/
structure PyDate where
  year : ℕ
  month : ℕ
  day : ℕ
deriving DecidableEq, Repr

/-- Value of a decimal digit character. -/
def dval (c : Char) : ℕ := c.toNat - 48

/-- Gregorian leap-year rule used by `datetime`. -/
def isLeap (y : ℕ) : Bool := (y % 4 == 0 && y % 100 != 0) || y % 400 == 0

/-- Number of days in a month, as validated by the `datetime` constructor. -/
def daysInMonth (y m : ℕ) : ℕ :=
  if m = 2 then (if isLeap y then 29 else 28)
  else if m = 4 ∨ m = 6 ∨ m = 9 ∨ m = 11 then 30 else 31

/-- One- or two-digit numeric field, as matched by the `_strptime` regex
for `%d` (`3[01]|[12]\d|0[1-9]|[1-9]`, `hi = 31`) and `%m`
(`1[0-2]|0[1-9]|[1-9]`, `hi = 12`): a two-digit window whose value lies
in `1..hi`, else a single digit `1..9`, consumed greedily. -/
def parseField (hi : ℕ) : List Char → Option (ℕ × List Char)
  | c1 :: c2 :: rest =>
    if c1.isDigit && c2.isDigit && decide (1 ≤ 10 * dval c1 + dval c2)
        && decide (10 * dval c1 + dval c2 ≤ hi) then
      some (10 * dval c1 + dval c2, rest)
    else if c1.isDigit && decide (1 ≤ dval c1) then some (dval c1, c2 :: rest)
    else none
  | [c1] => if c1.isDigit && decide (1 ≤ dval c1) then some (dval c1, []) else none
  | [] => none

/-- Four-digit year, as matched by the `_strptime` regex for `%Y`
(`\d\d\d\d`). -/
def parseYear4 : List Char → Option (ℕ × List Char)
  | a :: b :: c :: d :: rest =>
    if a.isDigit && b.isDigit && c.isDigit && d.isDigit then
      some (1000 * dval a + 100 * dval b + 10 * dval c + dval d, rest)
    else none
  | _ => none

/-- Fields collected while scanning a `strptime` format string. -/
structure StrpAcc where
  y : Option ℕ
  m : Option ℕ
  d : Option ℕ

/-- Scan of the format string against the input, supporting the
directives the library is used with (`%d`, `%m`, `%Y`, `%%`); a literal
whitespace character matches one or more whitespace characters (the
`\s+` translation in `_strptime`), any other literal character matches
itself case-insensitively (the `_strptime` regex is compiled with
`IGNORECASE`); an unknown directive, a mismatch, or unconverted
trailing input is a `ValueError`, i.e. `none`. -/
def strptimeGo : List Char → List Char → StrpAcc → Option StrpAcc
  | [], [], acc => some acc
  | [], _ :: _, _ => none
  | '%' :: dir :: fmtRest, inp, acc =>
    match dir with
    | 'd' =>
      match parseField 31 inp with
      | some (v, rest) => strptimeGo fmtRest rest { acc with d := some v }
      | none => none
    | 'm' =>
      match parseField 12 inp with
      | some (v, rest) => strptimeGo fmtRest rest { acc with m := some v }
      | none => none
    | 'Y' =>
      match parseYear4 inp with
      | some (v, rest) => strptimeGo fmtRest rest { acc with y := some v }
      | none => none
    | '%' =>
      match inp with
      | '%' :: inpRest => strptimeGo fmtRest inpRest acc
      | _ => none
    | _ => none
  | ['%'], _, _ => none
  | c :: fmtRest, inp, acc =>
    if c.isWhitespace then
      match inp with
      | i :: inpRest =>
        if i.isWhitespace then strptimeGo fmtRest (inpRest.dropWhile (·.isWhitespace)) acc
        else none
      | [] => none
    else
      match inp with
      | i :: inpRest => if i.toLower = c.toLower then strptimeGo fmtRest inpRest acc else none
      | [] => none

/-- Model of `datetime.datetime.strptime(date_string, format)`, restricted to the
directives modelled in `strptimeGo`, returning the date (missing fields
default to 1900-01-01) after the `datetime` constructor's range
validation; `none` models a raised `ValueError`. -/
def strptime (dateStr format : String) : Option PyDate :=
  match strptimeGo format.data dateStr.data ⟨none, none, none⟩ with
  | none => none
  | some acc =>
    let y := acc.y.getD 1900
    let m := acc.m.getD 1
    let d := acc.d.getD 1
    if 1 ≤ y ∧ y ≤ 9999 ∧ 1 ≤ m ∧ m ≤ 12 ∧ 1 ≤ d ∧ d ≤ daysInMonth y m then
      some ⟨y, m, d⟩
    else none

/-- Python `int(s)` on a string: optional surrounding whitespace, an
optional sign, then a non-empty run of digits (digit-group underscores
are not modelled; no input in this development contains them); `none`
models a raised `ValueError`. -/
def pyInt (s : String) : Option ℤ :=
  let l := (s.data.dropWhile (·.isWhitespace)).reverse.dropWhile (·.isWhitespace) |>.reverse
  match l with
  | '-' :: ds => if ds ≠ [] ∧ ds.all (·.isDigit) then some (-(natOfDigits ds : ℤ)) else none
  | '+' :: ds => if ds ≠ [] ∧ ds.all (·.isDigit) then some (natOfDigits ds : ℤ) else none
  | ds => if ds ≠ [] ∧ ds.all (·.isDigit) then some (natOfDigits ds : ℤ) else none

/-! ### `TxerpadParseUtils.parse_invoice_period` -/

/-- Model of `invoice_period.replace('T', '')`: remove every `'T'`. -/
def removeT (s : String) : String := ⟨s.data.filter (· ≠ 'T')⟩

/-- The two `ValueError`s `parse_invoice_period` can propagate: one from
`datetime.strptime` in the sales branch, one from `int(...)` in the
purchases branch. -/
inductive PeriodErr where
  | strptimeError
  | intError
deriving DecidableEq, Repr

/-- Embedding of `TxerpadParseUtils.parse_invoice_period`; `today` is the date read
by `datetime.datetime.today()` at call time.  `//` on Python ints is
floor division, `Int.fdiv` here. -/
def parse_invoice_period (invoice_period invoice_type issue_date date_format : String)
    (today : PyDate) : Except PeriodErr (Option String) :=
  if invoice_type ∈ InvoiceType.SALES then
    match strptime issue_date date_format with
    | some dt => .ok (some (invoice_period ++ toString dt.year))
    | none => .error .strptimeError
  else if invoice_type ∈ InvoiceType.PURCHASES then
    match pyInt (removeT invoice_period) with
    | some n =>
      .ok (some (invoice_period ++
        toString (if n ≤ Int.fdiv ((today.month : ℤ) - 1) 3 then (today.year : ℤ)
          else (today.year : ℤ) - 1)))
    | none => .error .intError
  else .ok none

/-! ### `TxerpadParseUtils.parse_tax`

The Python dict literals become association lists; `dict.get(key, None)`
is `List.lookup` (the keys of each table are pairwise distinct numbers,
so first-match lookup agrees with dict lookup).  Rates are exact
rationals: `0.5 = 1/2`, `1.4 = 7/5`, `5.2 = 26/5`, `19.5 = 39/2`. -/

def ivaSalesTable : List (ℚ × String) :=
  [(0, "IVANOSUJETO"), (4, "IVAVENTASE4"), (10, "IVAVENTASE10"), (21, "IVAVENTASE21")]

def ivaPurchasesTable : List (ℚ × String) :=
  [(0, "IVACOMPRASNOSUJETO"), (1/2, "IVACOMPRASRE05"), (7/5, "IVACOMPRASRE14"),
    (26/5, "IVACOMPRASRE52"), (4, "IVACOMPRASE4"), (10, "IVACOMPRASE10"),
    (21, "IVACOMPRASE21")]

def irpfSalesTable : List (ℚ × String) :=
  [(1, "IRPFCUENTA1"), (2, "IRPFCUENTA2"), (7, "IRPFCUENTA7"), (15, "IRPFCUENTA15"),
    (19, "IRPFCUENTA19A"), (39/2, "IRPFCUENTA195A"), (20, "IRPFCUENTA20"),
    (21, "IRPFCUENTA21")]

def irpfPurchasesTable : List (ℚ × String) :=
  [(1, "RETIRPF1"), (2, "RETIRPF2"), (7, "RETIRPF7"), (15, "RETIRPF15"),
    (19, "RETIRPF19A"), (39/2, "RETIRPF195A"), (20, "RETIRPF20"), (21, "RETIRPF21")]

/-- Model of `dict.get(tax_rate, None)` on an association list whose keys are
pairwise distinct numbers: the value at the first key equal to the
rate. -/
def rateLookup (table : List (ℚ × String)) (tax_rate : ℚ) : Option String :=
  match table with
  | [] => none
  | (k, v) :: rest => if tax_rate = k then some v else rateLookup rest tax_rate

/-- Embedding of `TxerpadParseUtils.parse_tax`: nested dispatch on `tax_type` and the
invoice-type group, then a dict lookup on the exact rate; every
fall-through returns `None`. -/
def parse_tax (invoice_type tax_type : String) (tax_rate : ℚ) : Option String :=
  if tax_type = "IVA" then
    if invoice_type ∈ InvoiceType.SALES then rateLookup ivaSalesTable tax_rate
    else if invoice_type ∈ InvoiceType.PURCHASES then rateLookup ivaPurchasesTable tax_rate
    else none
  else if tax_type = "IRPF" then
    if invoice_type ∈ InvoiceType.SALES then rateLookup irpfSalesTable tax_rate
    else if invoice_type ∈ InvoiceType.PURCHASES then rateLookup irpfPurchasesTable tax_rate
    else none
  else none

/-! ### `TxerpadParseUtils.parse_country`

The pycountry catalog and the gettext locale translations are external
read-only data, modelled abstractly: a catalog is any list of entries
carrying the fields the function reads, and the translation of an
English country name into a locale is an arbitrary function of the
locale code and the name. -/

/-- One entry of the pycountry catalog (the fields `parse_country`
reads). -/
structure Country where
  alpha_2 : String
  alpha_3 : String
  name : String
deriving DecidableEq, Repr

/-- Model of Python `str.lower()`: character-wise lowering (the ASCII
case of Python's Unicode lowering, which is all the catalog lookups in
this library exercise). -/
def pyLower (s : String) : String := ⟨s.data.map Char.toLower⟩

/-- The filter predicate of the list comprehension in `parse_country`:
`country.alpha_3.lower() == country_text.lower() or translate(country.name, country_text)`,
where the inner `translate` first compares the English name and then the
translation into each caller-supplied language. -/
def countryMatches (transl : String → String → String) (langs : List String)
    (country_text : String) (c : Country) : Bool :=
  pyLower c.alpha_3 == pyLower country_text
    || pyLower c.name == pyLower country_text
    || langs.any fun lang => pyLower (transl lang c.name) == pyLower country_text

/-- Embedding of `TxerpadParseUtils.parse_country`: the alpha-2 codes of all matching
catalog entries in catalog order, then element `[0]` if any, else
`None`. -/
def parse_country (catalog : List Country) (transl : String → String → String)
    (country_text : String) (country_translation_languages : List String) : Option String :=
  ((catalog.filter (countryMatches transl country_translation_languages country_text)).map
    Country.alpha_2).head?

/-! ### Helper lemmas -/

theorem replaceComma_idem (s : String) : replaceComma (replaceComma s) = replaceComma s := by
  unfold replaceComma
  congr 1
  simp only [List.map_map]
  apply List.map_congr_left
  intro c _
  by_cases h : c = ','
  · subst h; decide
  · simp [Function.comp, if_neg h]

theorem no_digit_replaceComma {s : String} (h : ∀ c ∈ s.data, c.isDigit = false) :
    ∀ c ∈ (replaceComma s).data, c.isDigit = false := by
  intro c hc
  simp only [replaceComma] at hc
  obtain ⟨c', hc', rfl⟩ := List.mem_map.mp hc
  by_cases h' : c' = ','
  · subst h'; decide
  · simpa [if_neg h'] using h c' hc'

theorem takeWhile_no_digit {l : List Char} (h : ∀ c ∈ l, c.isDigit = false) :
    ∃ k, l.takeWhile isDigitOrDot = List.replicate k '.' := by
  induction l with
  | nil => exact ⟨0, rfl⟩
  | cons c t ih =>
    by_cases hc : isDigitOrDot c = true
    · have hd : c.isDigit = false := h c (List.mem_cons_self c t)
      have hcd : c = '.' := by
        unfold isDigitOrDot at hc
        simpa [hd] using hc
      obtain ⟨k, hk⟩ := ih fun x hx => h x (List.mem_cons_of_mem _ hx)
      exact ⟨k + 1, by
        subst hcd
        simp [List.takeWhile_cons, hk, List.replicate_succ, isDigitOrDot]⟩
    · exact ⟨0, by simp [List.takeWhile_cons, hc]⟩

theorem splitOnDot_replicate (k : ℕ) :
    splitOnDot (List.replicate k '.') = List.replicate (k + 1) ([] : List Char) := by
  induction k with
  | zero => rfl
  | succ n ih => simp [List.replicate_succ, splitOnDot, ih]

theorem flatten_replicate_nil (n : ℕ) : (List.replicate n ([] : List Char)).flatten = [] := by
  induction n with
  | zero => rfl
  | succ k ih => simp [List.replicate_succ, ih]

theorem getLastD_replicate_nil (n : ℕ) :
    (List.replicate (n + 1) ([] : List Char)).getLastD [] = [] := by
  simp [List.getLastD_eq_getLast?, List.getLast?_replicate]

theorem dropLast_replicate_nil (n : ℕ) :
    (List.replicate (n + 1) ([] : List Char)).dropLast = List.replicate n ([] : List Char) := by
  simp [List.dropLast_replicate]

theorem purchases_not_sales {it : String} (hit : it ∈ InvoiceType.PURCHASES) :
    it ∉ InvoiceType.SALES := by
  have h : it = "compra" ∨ it = "rectifica_compra" := by
    simpa [InvoiceType.PURCHASES, InvoiceType.PURCHASE, InvoiceType.PURCHASE_RECTIFYING] using hit
  rcases h with h | h <;> subst h <;> decide

theorem purchases_branch {it : String} (hit : it ∈ InvoiceType.PURCHASES)
    (ip d f : String) (t : PyDate) {n : ℤ} (hpy : pyInt (removeT ip) = some n) :
    parse_invoice_period ip it d f t
      = .ok (some (ip ++ toString (if n ≤ Int.fdiv ((t.month : ℤ) - 1) 3 then (t.year : ℤ)
          else (t.year : ℤ) - 1))) := by
  simp only [parse_invoice_period, if_neg (purchases_not_sales hit), if_pos hit, hpy]

theorem rateLookup_mem {t : List (ℚ × String)} {r : ℚ} {c : String}
    (h : rateLookup t r = some c) : (r, c) ∈ t := by
  induction t with
  | nil => simp [rateLookup] at h
  | cons kv rest ih =>
    obtain ⟨k, v⟩ := kv
    rw [rateLookup] at h
    split_ifs at h with hrk
    · have hvc : v = c := by injection h
      subst hvc; subst hrk
      exact List.mem_cons_self _ _
    · exact List.mem_cons_of_mem _ (ih h)

theorem head_filter_map_eq_find {α β : Type} (p : α → Bool) (f : α → β) (l : List α) :
    ((l.filter p).map f).head? = (l.find? p).map f := by
  induction l with
  | nil => rfl
  | cons a t ih =>
    by_cases h : p a
    · simp [List.filter_cons, h, List.find?_cons, ih]
    · simp [List.filter_cons, h, List.find?_cons, ih]

theorem countryMatches_self (transl : String → String → String) (e : Country) :
    countryMatches transl [] e.alpha_3 e = true := by
  simp [countryMatches]

/-! ### Claim theorems -/

/-- C1: for every invoice type in the PURCHASES group and every trimester
label `nT` with `n` in `1..4`, `parse_invoice_period` returns the label
suffixed with the current year when `n ≤ (current_month - 1) // 3` and
with the current year minus one otherwise; in particular, with the
current date 2019-04-01 the call on `"1T"`/PURCHASE/`"01/01/2019"`
returns `"1T2019"`, and with current date 2019-02-01 it returns
`"1T2018"`. -/
theorem claim_C1_purchases_period_year_rule :
    (∀ it ∈ InvoiceType.PURCHASES, ∀ n : ℕ, 1 ≤ n → n ≤ 4 →
      ∀ (d f : String) (t : PyDate),
      parse_invoice_period (toString n ++ "T") it d f t
        = .ok (some ((toString n ++ "T") ++
            toString (if (n : ℤ) ≤ Int.fdiv ((t.month : ℤ) - 1) 3 then (t.year : ℤ)
              else (t.year : ℤ) - 1)))) ∧
    parse_invoice_period "1T" InvoiceType.PURCHASE "01/01/2019" "%d/%m/%Y" ⟨2019, 4, 1⟩
      = .ok (some "1T2019") ∧
    parse_invoice_period "1T" InvoiceType.PURCHASE "01/01/2019" "%d/%m/%Y" ⟨2019, 2, 1⟩
      = .ok (some "1T2018") := by
  refine ⟨?_, by decide, by decide⟩
  intro it hit n h1 h4 d f t
  have hpy : pyInt (removeT (toString n ++ "T")) = some (n : ℤ) := by
    interval_cases n <;> decide
  exact purchases_branch hit _ d f t hpy

/-- Witness for C1 at a concrete purchases input. -/
theorem claim_C1_witness :
    parse_invoice_period "2T" InvoiceType.PURCHASE_RECTIFYING "x" "y" ⟨2020, 8, 15⟩
      = .ok (some "2T2020") := by
  have h := claim_C1_purchases_period_year_rule.1 InvoiceType.PURCHASE_RECTIFYING (by decide) 2
    (by decide) (by decide) "x" "y" ⟨2020, 8, 15⟩
  exact h

/-- C2: `parse_money` accepts both separator conventions and yields the
same decimal value `158000.157` for `"158,000.157"` and `"158.000,157"`;
in general, when the extracted digits-and-dots run splits on dots into
more than one segment, all segments but the last are concatenated as the
integer part and the last segment is the fractional part. -/
theorem claim_C2_money_dual_separator :
    parse_money (.str "158,000.157") = .ok (some ((158000157 : ℚ) / 1000)) ∧
    parse_money (.str "158.000,157") = .ok (some ((158000157 : ℚ) / 1000)) ∧
    (∀ (s : String) (c : Char) (cs : List Char),
      (replaceComma s).data.takeWhile isDigitOrDot = c :: cs →
      1 < (splitOnDot (c :: cs)).length →
      ¬((splitOnDot (c :: cs)).dropLast.flatten = ([] : List Char) ∧
          (splitOnDot (c :: cs)).getLastD [] = ([] : List Char)) →
      parse_money (.str s) = .ok (some (moneyValue ((splitOnDot (c :: cs)).dropLast.flatten)
        ((splitOnDot (c :: cs)).getLastD [])))) := by
  have h1 : natOfDigits ("158000".data) = 158000 := rfl
  have h2 : natOfDigits ("157".data) = 157 := rfl
  have h3 : ("157".data).length = 3 := rfl
  refine ⟨?_, ?_, ?_⟩
  · have h : parse_money (.str "158,000.157") = .ok (some (moneyValue "158000".data "157".data)) :=
      rfl
    rw [h]
    simp only [moneyValue, h1, h2, h3]
    norm_num
  · have h : parse_money (.str "158.000,157") = .ok (some (moneyValue "158000".data "157".data)) :=
      rfl
    rw [h]
    simp only [moneyValue, h1, h2, h3]
    norm_num
  · intro s c cs htake hlen hne
    simp only [parse_money, parse_money_str, htake]
    rw [if_pos hlen, if_neg hne]
    rfl

/-- Witness for C2 at the concrete input `"1.5"`. -/
theorem claim_C2_witness :
    parse_money (.str "1.5") = .ok (some (moneyValue ['1'] ['5'])) :=
  claim_C2_money_dual_separator.2.2 "1.5" '1' ['.', '5'] (by decide) (by decide) (by decide)

/-- C3 counterexample: `parse_invoice_period` on the very same argument
tuple returns different results at two different current dates (the
PURCHASES branch reads the real-world clock), so the four operations are
not all pure functions of their arguments. -/
theorem claim_C3_counterexample :
    parse_invoice_period "1T" InvoiceType.PURCHASE "01/01/2019" "%d/%m/%Y" ⟨2019, 4, 1⟩ ≠
    parse_invoice_period "1T" InvoiceType.PURCHASE "01/01/2019" "%d/%m/%Y" ⟨2019, 2, 1⟩ := by
  decide

/-- C3 (amended): `parse_country`, `parse_money` and `parse_tax` are
pure functions of their arguments, and `parse_invoice_period` is a pure
function of its arguments and the current date: its result depends on
the ambient clock only through the current year and month, and not at
all when the invoice type is outside the PURCHASES group. -/
theorem claim_C3_amended_clock_determinism :
    (∀ (ip it d f : String) (t1 t2 : PyDate), t1.year = t2.year → t1.month = t2.month →
      parse_invoice_period ip it d f t1 = parse_invoice_period ip it d f t2) ∧
    (∀ (ip it d f : String) (t1 t2 : PyDate), it ∉ InvoiceType.PURCHASES →
      parse_invoice_period ip it d f t1 = parse_invoice_period ip it d f t2) := by
  constructor
  · rintro ip it d f ⟨y1, m1, d1⟩ ⟨y2, m2, d2⟩ hy hm
    dsimp only at hy hm
    subst hy; subst hm; rfl
  · intro ip it d f t1 t2 hp
    by_cases hs : it ∈ InvoiceType.SALES
    · simp [parse_invoice_period, hs]
    · simp [parse_invoice_period, hs, hp]

/-- Witness for the amended C3 at concrete dates of equal year and
month. -/
theorem claim_C3_witness :
    parse_invoice_period "1T" InvoiceType.PURCHASE "a" "b" ⟨2019, 4, 1⟩
      = parse_invoice_period "1T" InvoiceType.PURCHASE "a" "b" ⟨2019, 4, 30⟩ :=
  claim_C3_amended_clock_determinism.1 "1T" InvoiceType.PURCHASE "a" "b" ⟨2019, 4, 1⟩
    ⟨2019, 4, 30⟩ rfl rfl

/-- C4: `parse_money` returns `None` for an input that is neither
numeric nor a string, but raises on a string that fails the
digits-and-dots extraction (the run is empty because the string does not
start with a digit or dot after comma replacement), and raises on any
string with no digits at all. -/
theorem claim_C4_money_error_handling :
    parse_money .other = .ok none ∧
    (∀ s : String, (replaceComma s).data.takeWhile isDigitOrDot = [] →
      parse_money (.str s) = .error .matchFail) ∧
    (∀ s : String, (∀ c ∈ s.data, c.isDigit = false) →
      ∃ e, parse_money (.str s) = .error e) := by
  refine ⟨rfl, ?_, ?_⟩
  · intro s h
    simp only [parse_money, parse_money_str, h]
    rfl
  · intro s h
    obtain ⟨k, hk⟩ := takeWhile_no_digit (no_digit_replaceComma h)
    match k, hk with
    | 0, hk =>
      exact ⟨.matchFail, by simp only [parse_money, parse_money_str, hk, List.replicate]; rfl⟩
    | k + 1, hk =>
      refine ⟨.invalidDecimal, ?_⟩
      rw [List.replicate_succ] at hk
      simp only [parse_money, parse_money_str, hk]
      have hsplit : splitOnDot ('.' :: List.replicate k '.')
          = List.replicate (k + 2) ([] : List Char) := by
        rw [← List.replicate_succ, splitOnDot_replicate]
      rw [hsplit]
      simp only [List.length_replicate, dropLast_replicate_nil, flatten_replicate_nil,
        getLastD_replicate_nil]
      rw [if_pos (by omega), if_pos ⟨trivial, trivial⟩]
      rfl

/-- Witness for C4 at the concrete strings `"abc"` and `"..."`. -/
theorem claim_C4_witness :
    parse_money (.str "abc") = .error .matchFail ∧
    ∃ e, parse_money (.str "...") = .error e :=
  ⟨claim_C4_money_error_handling.2.1 "abc" (by decide),
    claim_C4_money_error_handling.2.2 "..." (by decide)⟩

/-- C5: `parse_tax` is a pure table lookup keyed by tax type, invoice
group and exact rate equality: the three mapped examples return their
codes, an unmapped rate returns `None`, an unknown tax type or invoice
group returns `None`, and every `some` result comes from one of the four
static tables. -/
theorem claim_C5_tax_table_lookup :
    parse_tax InvoiceType.SALE "IVA" 4 = some "IVAVENTASE4" ∧
    parse_tax InvoiceType.PURCHASE "IRPF" 15 = some "RETIRPF15" ∧
    parse_tax InvoiceType.SALE "IRPF" (39/2) = some "IRPFCUENTA195A" ∧
    parse_tax InvoiceType.SALE "IVA" 99 = none ∧
    (∀ (it tt : String) (r : ℚ), tt ≠ "IVA" → tt ≠ "IRPF" → parse_tax it tt r = none) ∧
    (∀ (it tt : String) (r : ℚ), it ∉ InvoiceType.SALES → it ∉ InvoiceType.PURCHASES →
      parse_tax it tt r = none) ∧
    (∀ (it tt : String) (r : ℚ) (c : String), parse_tax it tt r = some c →
      (r, c) ∈ ivaSalesTable ∨ (r, c) ∈ ivaPurchasesTable ∨
      (r, c) ∈ irpfSalesTable ∨ (r, c) ∈ irpfPurchasesTable) := by
  refine ⟨?_, ?_, ?_, ?_, ?_, ?_, ?_⟩
  · norm_num [parse_tax, InvoiceType.SALES, InvoiceType.SALE, InvoiceType.SALE_RECTIFYING,
      InvoiceType.PURCHASES, ivaSalesTable, rateLookup]
    try decide
  · norm_num [parse_tax, InvoiceType.SALES, InvoiceType.SALE, InvoiceType.SALE_RECTIFYING,
      InvoiceType.PURCHASES, InvoiceType.PURCHASE, InvoiceType.PURCHASE_RECTIFYING,
      irpfPurchasesTable, rateLookup]
    try decide
  · norm_num [parse_tax, InvoiceType.SALES, InvoiceType.SALE, InvoiceType.SALE_RECTIFYING,
      InvoiceType.PURCHASES, irpfSalesTable, rateLookup]
    try decide
  · norm_num [parse_tax, InvoiceType.SALES, InvoiceType.SALE, InvoiceType.SALE_RECTIFYING,
      InvoiceType.PURCHASES, ivaSalesTable, rateLookup]
  · intro it tt r hiva hirpf
    simp [parse_tax, hiva, hirpf]
  · intro it tt r hs hp
    simp [parse_tax, hs, hp]
  · intro it tt r c h
    unfold parse_tax at h
    split_ifs at h <;>
      first
        | exact Or.inl (rateLookup_mem h)
        | exact Or.inr (Or.inl (rateLookup_mem h))
        | exact Or.inr (Or.inr (Or.inl (rateLookup_mem h)))
        | exact Or.inr (Or.inr (Or.inr (rateLookup_mem h)))

/-- Witness for C5 at an unknown tax type and an unknown invoice
group. -/
theorem claim_C5_witness :
    parse_tax InvoiceType.SALE "FOO" 4 = none ∧ parse_tax "gasto" "IVA" 4 = none :=
  ⟨claim_C5_tax_table_lookup.2.2.2.2.1 InvoiceType.SALE "FOO" 4 (by decide) (by decide),
    claim_C5_tax_table_lookup.2.2.2.2.2.1 "gasto" "IVA" 4 (by decide) (by decide)⟩

/-- C6: `parse_country` returns the alpha-2 code of the first catalog
entry (in catalog order) matching the input case-insensitively against
its alpha-3 code, its English name, or any caller-supplied locale
translation of that name; no match gives `None`; and looking up the
alpha-3 code of a catalog entry returns that entry's alpha-2 code
(under the ISO-catalog well-formedness conditions that entries sharing a
lowered alpha-3 share their alpha-2 and that no entry's lowered name
equals the looked-up alpha-3). -/
theorem claim_C6_country_first_match :
    (∀ (catalog : List Country) (transl : String → String → String) (text : String)
        (langs : List String),
      parse_country catalog transl text langs
        = (catalog.find? (countryMatches transl langs text)).map Country.alpha_2) ∧
    (∀ (catalog : List Country) (transl : String → String → String) (text : String)
        (langs : List String),
      (∀ c ∈ catalog, countryMatches transl langs text c = false) →
      parse_country catalog transl text langs = none) ∧
    (∀ (catalog : List Country) (transl : String → String → String) (e : Country),
      e ∈ catalog →
      (∀ c ∈ catalog, pyLower c.alpha_3 = pyLower e.alpha_3 → c.alpha_2 = e.alpha_2) →
      (∀ c ∈ catalog, pyLower c.name ≠ pyLower e.alpha_3) →
      parse_country catalog transl e.alpha_3 [] = some e.alpha_2) := by
  refine ⟨?_, ?_, ?_⟩
  · intro catalog transl text langs
    exact head_filter_map_eq_find _ _ _
  · intro catalog transl text langs h
    unfold parse_country
    have hnil : catalog.filter (countryMatches transl langs text) = [] := by
      rw [List.filter_eq_nil_iff]
      intro a ha
      simp [h a ha]
    rw [hnil]
    rfl
  · intro catalog transl e
    induction catalog with
    | nil => intro he _ _; cases he
    | cons c0 t ih =>
      intro he h1 h2
      by_cases hm : countryMatches transl [] e.alpha_3 c0 = true
      · have ha2 : c0.alpha_2 = e.alpha_2 := by
          unfold countryMatches at hm
          simp only [List.any_nil, Bool.or_false, Bool.or_eq_true, beq_iff_eq] at hm
          rcases hm with ha | hb
          · exact h1 c0 (List.mem_cons_self _ _) ha
          · exact absurd hb (h2 c0 (List.mem_cons_self _ _))
        simp [parse_country, List.filter_cons, hm, ha2]
      · have he' : e ∈ t := by
          rcases List.mem_cons.mp he with rfl | he'
          · exact absurd (countryMatches_self transl e) hm
          · exact he'
        have hrec := ih he' (fun c hc => h1 c (List.mem_cons_of_mem _ hc))
          (fun c hc => h2 c (List.mem_cons_of_mem _ hc))
        simpa [parse_country, List.filter_cons, hm] using hrec

/-- Witness for C6 on a concrete two-entry catalog. -/
theorem claim_C6_witness :
    parse_country [⟨"DE", "DEU", "Germany"⟩, ⟨"ES", "ESP", "Spain"⟩] (fun _ n => n) "DEU" []
      = some "DE" :=
  claim_C6_country_first_match.2.2 [⟨"DE", "DEU", "Germany"⟩, ⟨"ES", "ESP", "Spain"⟩]
    (fun _ n => n) ⟨"DE", "DEU", "Germany"⟩ (by decide) (by decide) (by decide)

/-- C7: for every invoice type in the SALES group,
`parse_invoice_period` parses the issue date with the supplied format,
extracts its year and returns the trimester label concatenated with that
year; in particular `"1T"`/SALE/`"25/01/2019"`/`"%d/%m/%Y"` gives
`"1T2019"` whatever the current date. -/
theorem claim_C7_sales_period :
    (∀ it ∈ InvoiceType.SALES, ∀ (ip d f : String) (t : PyDate),
      parse_invoice_period ip it d f t
        = match strptime d f with
          | some dt => .ok (some (ip ++ toString dt.year))
          | none => .error .strptimeError) ∧
    (∀ t : PyDate,
      parse_invoice_period "1T" InvoiceType.SALE "25/01/2019" "%d/%m/%Y" t
        = .ok (some "1T2019")) := by
  constructor
  · intro it hit ip d f t
    simp only [parse_invoice_period, if_pos hit]
  · intro t
    rfl

/-- Witness for C7 at a concrete sales input. -/
theorem claim_C7_witness :
    parse_invoice_period "1T" InvoiceType.SALE "25/01/2019" "%d/%m/%Y" ⟨2030, 6, 6⟩
      = .ok (some "1T2019") := by
  have h := claim_C7_sales_period.1 InvoiceType.SALE (by decide) "1T" "25/01/2019" "%d/%m/%Y"
    ⟨2030, 6, 6⟩
  rw [h]
  rfl

/-- C8: for every invoice type in neither the SALES group nor the
PURCHASES group, `parse_invoice_period` returns `None`, regardless of
the other arguments. -/
theorem claim_C8_unknown_type_none (it : String) (hs : it ∉ InvoiceType.SALES)
    (hp : it ∉ InvoiceType.PURCHASES) (ip d f : String) (t : PyDate) :
    parse_invoice_period ip it d f t = .ok none := by
  simp [parse_invoice_period, hs, hp]

/-- Witness for C8 at the invoice type `"UNKNOWN_TYPE"`. -/
theorem claim_C8_witness :
    parse_invoice_period "1T" "UNKNOWN_TYPE" "01/01/2019" "%d/%m/%Y" ⟨2019, 2, 1⟩ = .ok none :=
  claim_C8_unknown_type_none "UNKNOWN_TYPE" (by decide) (by decide) "1T" "01/01/2019"
    "%d/%m/%Y" ⟨2019, 2, 1⟩

/-- C9: commas and dots are interchangeable in string inputs to
`parse_money`: the result (value or raised error) only depends on the
comma-to-dot normalisation of the input, and in particular equals the
result on the input with every comma replaced by a dot. -/
theorem claim_C9_comma_dot_interchangeable :
    (∀ s1 s2 : String, replaceComma s1 = replaceComma s2 →
      parse_money (.str s1) = parse_money (.str s2)) ∧
    (∀ s : String, parse_money (.str s) = parse_money (.str (replaceComma s))) := by
  have key : ∀ s1 s2 : String, replaceComma s1 = replaceComma s2 →
      parse_money (.str s1) = parse_money (.str s2) := by
    intro s1 s2 h
    simp only [parse_money, parse_money_str, h]
  exact ⟨key, fun s => key s (replaceComma s) (replaceComma_idem s).symm⟩

/-- Witness for C9 at the concrete pair `"1,5"` and `"1.5"`. -/
theorem claim_C9_witness : parse_money (.str "1,5") = parse_money (.str "1.5") :=
  claim_C9_comma_dot_interchangeable.1 "1,5" "1.5" (by decide)

/-- C10: for every invoice type in the PURCHASES group, the result of
`parse_invoice_period` does not depend on the `issue_date` and
`date_format` arguments, and no date-parsing error is raised in this
branch. -/
theorem claim_C10_purchases_issue_date_independent :
    ∀ it ∈ InvoiceType.PURCHASES,
      (∀ (ip d1 f1 d2 f2 : String) (t : PyDate),
        parse_invoice_period ip it d1 f1 t = parse_invoice_period ip it d2 f2 t) ∧
      (∀ (ip d f : String) (t : PyDate),
        parse_invoice_period ip it d f t ≠ .error .strptimeError) := by
  intro it hit
  have hns := purchases_not_sales hit
  constructor
  · intro ip d1 f1 d2 f2 t
    simp only [parse_invoice_period, if_neg hns, if_pos hit]
  · intro ip d f t
    simp only [parse_invoice_period, if_neg hns, if_pos hit]
    cases hpy : pyInt (removeT ip) <;> simp [hpy]

/-- Witness for C10 at concrete differing issue dates and formats. -/
theorem claim_C10_witness :
    parse_invoice_period "1T" InvoiceType.PURCHASE "a" "b" ⟨2019, 4, 1⟩
      = parse_invoice_period "1T" InvoiceType.PURCHASE "c" "d" ⟨2019, 4, 1⟩ ∧
    parse_invoice_period "1T" InvoiceType.PURCHASE "a" "b" ⟨2019, 4, 1⟩
      ≠ .error .strptimeError := by
  have h := claim_C10_purchases_issue_date_independent InvoiceType.PURCHASE (by decide)
  exact ⟨h.1 "1T" "a" "b" "c" "d" ⟨2019, 4, 1⟩, h.2 "1T" "a" "b" ⟨2019, 4, 1⟩⟩

end IeUtils
